import Mathlib

/-!
Shallow embedding of `src/app.py` (a YouTube live-stream watchdog that reboots
a Raspberry Pi over SSH after too many consecutive negative live checks).

External collaborators (yt-dlp extraction, subprocess/ssh execution) are
modelled as explicit inputs to each tick: the result a strategy's
`extract_info` call would produce (either a raised exception or an info
dictionary) and the outcome of the `subprocess.run` reboot command.
Python's unbounded `int` is modelled by `Int`; dictionary `get` with absent
keys is modelled by `Option`.
-/

/-- Python truthiness of an `Option Bool` obtained from `dict.get`
(`None` is falsy, otherwise the boolean itself). -/
def truthy : Option Bool → Bool
  | none => false
  | some b => b

/-- Python truthiness of an `Option String` (`None` and the empty string
are falsy). Used by the `all([...])` check in `StreamMonitor.__init__`. -/
def truthyStr : Option String → Bool
  | none => false
  | some s => !(s == "")

/-- One entry of the `info['entries']` list returned by yt-dlp
(src/app.py lines 40-50, 79-82).  Each field models `entry.get(key)`:
`none` stands for an absent key (or a `None` value, which `get` cannot
distinguish from absence), except `duration`, where `entry.get('duration', 0)`
distinguishes an absent key (default `0`) from a present `None`;
there `none` = key absent, `some none` = value `None`, `some (some d)` = number `d`. -/
structure Entry where
  live_status : Option String
  is_live : Option Bool
  was_live : Option Bool
  duration : Option (Option Int)
  title : Option String
deriving DecidableEq

/-- The info dictionary returned by `ydl.extract_info`; `entries` models
`info.get('entries', [])` (src/app.py lines 40 and 79). -/
structure ExtractInfo where
  entries : List Entry
deriving DecidableEq

/-- The state held by the `StreamMonitor` object (src/app.py lines 14-23):
the mutable failure counter plus the configuration read once at startup. -/
structure StreamMonitor where
  consecutive_failures : Int
  max_failures : Int
  channel_url : String
  ssh_host : String
  ssh_username : String
  ssh_password : String
deriving DecidableEq

/-- Replace the `consecutive_failures` field, leaving configuration intact
(models an assignment to `self.consecutive_failures`). -/
def StreamMonitor.withFailures (m : StreamMonitor) (c : Int) : StreamMonitor :=
  ⟨c, m.max_failures, m.channel_url, m.ssh_host, m.ssh_username, m.ssh_password⟩

/-- The `is_currently_live` test of the primary strategy
(src/app.py lines 41-45):
`entry.get('live_status') == 'is_live' or (entry.get('is_live') and not
entry.get('was_live')) or entry.get('live_status') == 'live'`. -/
def isCurrentlyLive (e : Entry) : Bool :=
  (e.live_status == some "is_live") ||
  (truthy e.is_live && !(truthy e.was_live)) ||
  (e.live_status == some "live")

/-- The duration filter of the primary strategy (src/app.py lines 48-49):
`duration = entry.get('duration', 0); duration is None or duration > 3600`. -/
def durationOk (e : Entry) : Bool :=
  match e.duration.getD (some 0) with
  | none => true
  | some d => decide (3600 < d)

/-- `StreamMonitor.check_live_stream` (src/app.py lines 25-58).
`fetch` is the outcome of `ydl.extract_info(self.channel_url, download=False)`:
`.error e` models a raised exception, which the method catches, logs and folds
into the verdict `(False, [])`; the function is total, so no exception escapes.
The returned `StreamMonitor` is the state of `self` after the call: the method
body assigns no attribute, so it is the input state. -/
def check_live_stream (m : StreamMonitor) (fetch : Except String ExtractInfo) :
    (Bool × List Entry) × StreamMonitor :=
  match fetch with
  | .error _ => ((false, []), m)
  | .ok info =>
      let current_live_streams :=
        info.entries.filter (fun e => isCurrentlyLive e && durationOk e)
      let is_live := decide (0 < current_live_streams.length)
      ((is_live, current_live_streams), m)

/-- Substring test modelling Python's `in` operator on strings. -/
def strContains (s pat : String) : Bool :=
  (s.splitOn pat).length != 1

/-- The `live_url` computation of the alternative strategy
(src/app.py lines 63-66). -/
def live_url_of (channel_url : String) : String :=
  if strContains channel_url "/videos" || strContains channel_url "/streams" then
    (channel_url.replace "/videos" "/streams").replace "/featured" "/streams"
  else
    (channel_url.dropRightWhile (fun c => c == '/')) ++ "/streams"

/-- The entry test of the alternative strategy (src/app.py lines 80-81):
`entry.get('live_status') == 'is_live' or (entry.get('is_live') and 'live' in
entry.get('title', '').lower())`. -/
def isLiveAlt (e : Entry) : Bool :=
  (e.live_status == some "is_live") ||
  (truthy e.is_live && strContains (e.title.getD "").toLower "live")

/-- `StreamMonitor.check_live_stream_alternative` (src/app.py lines 60-90).
`fetch` is the outcome of `ydl.extract_info(live_url, download=False)`; an
exception is caught and folded into `(False, [])`.  As in the primary
strategy, no attribute of `self` is assigned, so the returned state is the
input state. -/
def check_live_stream_alternative (m : StreamMonitor)
    (fetch : Except String ExtractInfo) :
    (Bool × List Entry) × StreamMonitor :=
  match fetch with
  | .error _ => ((false, []), m)
  | .ok info =>
      let current_live := info.entries.filter isLiveAlt
      let is_live := decide (0 < current_live.length)
      ((is_live, current_live), m)

/-- The `timeout=30` argument passed to `subprocess.run`
(src/app.py line 104). -/
def reboot_timeout_seconds : Nat := 30

/-- The command list built by `reboot_raspberry_pi` (src/app.py lines 98-102). -/
def reboot_command (m : StreamMonitor) : List String :=
  ["sshpass", "-p", m.ssh_password,
   "ssh", m.ssh_username ++ "@" ++ m.ssh_host,
   "sudo", "reboot", "now"]

/-- Possible outcomes of the `subprocess.run` call inside
`reboot_raspberry_pi`: normal completion with an exit code and stderr,
`subprocess.TimeoutExpired` after the 30-second timeout, or any other
exception (transport/auth failure, missing binary, ...). -/
inductive RunOutcome where
  | completed (returncode : Int) (stderr : String)
  | timedOut
  | raised (msg : String)
deriving DecidableEq

/-- `StreamMonitor.reboot_raspberry_pi` (src/app.py lines 92-118): returns
`True` on exit code 0, `False` on a non-zero exit code, `True` when the
command times out ("may have succeeded"), and `False` on any other exception.
The function is total: no exception escapes the method. -/
def reboot_raspberry_pi (m : StreamMonitor) (run : RunOutcome) : Bool :=
  let _command := reboot_command m
  match run with
  | .completed returncode _ => returncode == 0
  | .timedOut => true
  | .raised _ => false

/-- The external inputs consumed by one `monitor_task` tick: the extraction
outcome seen by each detection strategy and the `subprocess.run` outcome the
reboot command would have (consulted only if the reboot is invoked). -/
structure TickInputs where
  fetch1 : Except String ExtractInfo
  fetch2 : Except String ExtractInfo
  runResult : RunOutcome

/-- What one `monitor_task` tick produces: the updated monitor state, the
aggregate verdict it computed, how many times it invoked
`reboot_raspberry_pi`, the (discarded) result of that call if made, and the
stream title it logged when live. -/
structure TickResult where
  monitor : StreamMonitor
  is_live : Bool
  reboot_invocations : Nat
  reboot_result : Option Bool
  logged_title : Option String
deriving DecidableEq

/-- The `stream_title` expression of src/app.py line 133:
`streams1[0].get('title', 'Unknown') if streams1 else
streams2[0].get('title', 'Unknown') if streams2 else 'Unknown'`. -/
def stream_title_of (streams1 streams2 : List Entry) : String :=
  match streams1 with
  | e :: _ => e.title.getD "Unknown"
  | [] =>
    match streams2 with
    | e :: _ => e.title.getD "Unknown"
    | [] => "Unknown"

/-- `StreamMonitor.monitor_task` (src/app.py lines 120-147), with the two
extraction outcomes and the potential subprocess outcome passed in.  The
method calls both strategies, ORs their verdicts (line 130), resets or
increments the counter (lines 132-139), and if the counter has reached
`max_failures` invokes `reboot_raspberry_pi`, discards its result, and resets
the counter to 0 (lines 142-147). -/
def monitor_task (m : StreamMonitor) (inp : TickInputs) : TickResult :=
  let r1 := check_live_stream m inp.fetch1
  let is_live1 := r1.1.1
  let streams1 := r1.1.2
  let m1 := r1.2
  let r2 := check_live_stream_alternative m1 inp.fetch2
  let is_live2 := r2.1.1
  let streams2 := r2.1.2
  let m2 := r2.2
  let is_live := is_live1 || is_live2
  let mMid := m2.withFailures (if is_live then 0 else m2.consecutive_failures + 1)
  let logged_title := if is_live then some (stream_title_of streams1 streams2) else none
  if mMid.consecutive_failures ≥ mMid.max_failures then
    ⟨mMid.withFailures 0, is_live, 1,
     some (reboot_raspberry_pi mMid inp.runResult), logged_title⟩
  else
    ⟨mMid, is_live, 0, none, logged_title⟩

/-- The aggregate verdict a tick computes (src/app.py lines 126-130):
the OR of the two strategies' verdicts, threading `self` through the two
method calls. -/
def aggregate_verdict (m : StreamMonitor) (inp : TickInputs) : Bool :=
  (check_live_stream m inp.fetch1).1.1 ||
  (check_live_stream_alternative (check_live_stream m inp.fetch1).2 inp.fetch2).1.1

/-- The counter transition one tick performs, as a function of the aggregate
verdict (src/app.py lines 132-147): reset on a live verdict, otherwise
increment; then reset to 0 if the threshold is reached. -/
def tick_counter (max_failures c : Int) (is_live : Bool) : Int :=
  let c1 := if is_live then 0 else c + 1
  if c1 ≥ max_failures then 0 else c1

/-- The length of the trailing run of negative (not-live) verdicts of a
verdict sequence: the spec's notion the counter is compared against. -/
def trailing_failure_run (vs : List Bool) : Nat :=
  (vs.reverse.takeWhile (fun v => !v)).length

/-- The process environment at startup: `os.getenv` for each variable the
program reads (`none` = variable unset). -/
structure Env where
  max_consecutive_failures : Option String
  youtube_channel_url : Option String
  ssh_host : Option String
  ssh_username : Option String
  ssh_password : Option String
  check_interval : Option String
deriving DecidableEq

/-- `StreamMonitor.__init__` (src/app.py lines 14-23).
`int(os.getenv('MAX_CONSECUTIVE_FAILURES', 3))` is modelled with
`String.toInt?` for the `int()` parse (a failed parse raises, hence
`.error`); then `if not all([...]): raise ValueError(...)` requires the four
required variables to be truthy (set and non-empty). -/
def StreamMonitor.init (env : Env) : Except String StreamMonitor :=
  match (match env.max_consecutive_failures with
         | none => some (3 : Int)
         | some s => s.toInt?) with
  | none => .error "invalid literal for int()"
  | some max_failures =>
    if truthyStr env.youtube_channel_url && truthyStr env.ssh_host &&
       truthyStr env.ssh_username && truthyStr env.ssh_password then
      .ok ⟨0, max_failures,
           env.youtube_channel_url.getD "", env.ssh_host.getD "",
           env.ssh_username.getD "", env.ssh_password.getD ""⟩
    else
      .error "Missing required environment variables"

/-- Outcome of process startup (`main`, src/app.py lines 172-178): either the
monitor was constructed and the monitoring loop entered with counter 0, or
construction raised, the diagnostic was printed and the process returned
without entering the loop. -/
inductive MainOutcome where
  | started (m : StreamMonitor)
  | startupFailure (diagnostic : String)
deriving DecidableEq

/-- `main` (src/app.py lines 172-178): construct the monitor; on any
exception print a diagnostic and exit without running the loop.  (Named
`main_entry` because Lean reserves `main` for executables.) -/
def main_entry (env : Env) : MainOutcome :=
  match StreamMonitor.init env with
  | .ok m => .started m
  | .error e => .startupFailure ("Failed to start monitor: " ++ e)

/-! ### Shared lemmas about the embedding -/

lemma check_live_stream_state (m : StreamMonitor) (f : Except String ExtractInfo) :
    (check_live_stream m f).2 = m := by
  cases f <;> rfl

lemma check_live_stream_alternative_state (m : StreamMonitor)
    (f : Except String ExtractInfo) :
    (check_live_stream_alternative m f).2 = m := by
  cases f <;> rfl

/-- Normal form of one tick: counter update by the aggregate verdict, then
the threshold check, reboot invocation and reset. -/
lemma monitor_task_eq (m : StreamMonitor) (inp : TickInputs) :
    monitor_task m inp =
      (if (if aggregate_verdict m inp then 0 else m.consecutive_failures + 1) ≥
            m.max_failures then
        ⟨m.withFailures 0, aggregate_verdict m inp, 1,
         some (reboot_raspberry_pi
           (m.withFailures
             (if aggregate_verdict m inp then 0 else m.consecutive_failures + 1))
           inp.runResult),
         if aggregate_verdict m inp then
           some (stream_title_of (check_live_stream m inp.fetch1).1.2
             (check_live_stream_alternative m inp.fetch2).1.2)
         else none⟩
      else
        ⟨m.withFailures
           (if aggregate_verdict m inp then 0 else m.consecutive_failures + 1),
         aggregate_verdict m inp, 0, none,
         if aggregate_verdict m inp then
           some (stream_title_of (check_live_stream m inp.fetch1).1.2
             (check_live_stream_alternative m inp.fetch2).1.2)
         else none⟩) := by
  obtain ⟨f1, f2, rr⟩ := inp
  cases f1 <;> cases f2 <;> rfl

/-- The counter a tick leaves behind is `tick_counter` applied to the
aggregate verdict. -/
lemma monitor_task_counter (m : StreamMonitor) (inp : TickInputs) :
    (monitor_task m inp).monitor.consecutive_failures =
      tick_counter m.max_failures m.consecutive_failures (aggregate_verdict m inp) := by
  rw [monitor_task_eq, tick_counter]
  split <;> split <;> rfl

/-- A live verdict makes `tick_counter` pass through `0`; a not-live verdict
makes it pass through the incremented counter. -/
lemma tick_counter_emod (mf : Int) (hmf : 1 ≤ mf) (r : Int) (hr : 0 ≤ r) (v : Bool) :
    tick_counter mf (r % mf) v = (if v then 0 else r + 1) % mf := by
  have h0 : 0 ≤ r % mf := Int.emod_nonneg r (by omega)
  have h1 : r % mf < mf := Int.emod_lt_of_pos r (by omega)
  cases v with
  | true =>
    show (if (0 : Int) ≥ mf then 0 else 0) = 0 % mf
    rw [Int.zero_emod]
    split <;> rfl
  | false =>
    show (if r % mf + 1 ≥ mf then 0 else r % mf + 1) = (r + 1) % mf
    have key : (r + 1) % mf = (r % mf + 1) % mf :=
      (Int.ModEq.add_right 1 (Int.emod_emod_of_dvd r dvd_rfl)).symm
    by_cases hge : r % mf + 1 ≥ mf
    · have he : r % mf + 1 = mf := by omega
      rw [if_pos hge, key, he, Int.emod_self]
    · have hlt : (r % mf + 1) % mf = r % mf + 1 :=
        Int.emod_eq_of_lt (by omega) (by omega)
      rw [if_neg hge, key, hlt]

/-- Folding `tick_counter` from a counter congruent to `r` tracks, modulo the
threshold, the fold of the raw (uncapped) trailing-run step from `r`. -/
lemma foldl_tick_counter_emod (mf : Int) (hmf : 1 ≤ mf) (vs : List Bool) :
    ∀ c r : Int, 0 ≤ r → c = r % mf →
      vs.foldl (tick_counter mf) c =
        (vs.foldl (fun acc v => if v then 0 else acc + 1) r) % mf := by
  induction vs with
  | nil =>
    intro c r _ hc
    simpa using hc
  | cons v vs ih =>
    intro c r hr hc
    simp only [List.foldl_cons]
    apply ih
    · cases v <;> simp <;> omega
    · subst hc
      exact tick_counter_emod mf hmf r hr v

/-- The raw trailing-run step folded from `0` computes the length of the
trailing run of negative verdicts. -/
lemma foldl_step_eq_trailing_run (vs : List Bool) :
    vs.foldl (fun acc v => if v then 0 else acc + 1) (0 : Int) =
      (trailing_failure_run vs : Int) := by
  induction vs using List.reverseRecOn with
  | nil => rfl
  | append_singleton vs v ih =>
    rw [List.foldl_append]
    cases v <;> simp [trailing_failure_run, List.takeWhile_cons, ih]

/-- One tick keeps a non-negative counter within `[0, max_failures]`. -/
lemma tick_counter_bounds (mf : Int) (hmf : 1 ≤ mf) (c : Int) (hc : 0 ≤ c) (v : Bool) :
    0 ≤ tick_counter mf c v ∧ tick_counter mf c v ≤ mf := by
  rw [tick_counter]
  split <;> cases v <;> simp <;> omega

/-- Folding `tick_counter` keeps a counter that starts in `[0, max_failures]`
inside `[0, max_failures]`. -/
lemma foldl_tick_counter_bounds (mf : Int) (hmf : 1 ≤ mf) (vs : List Bool) :
    ∀ c : Int, 0 ≤ c → c ≤ mf →
      0 ≤ vs.foldl (tick_counter mf) c ∧ vs.foldl (tick_counter mf) c ≤ mf := by
  induction vs with
  | nil =>
    intro c h0 h1
    simpa using ⟨h0, h1⟩
  | cons v vs ih =>
    intro c h0 h1
    simp only [List.foldl_cons]
    have hb := tick_counter_bounds mf hmf c h0 v
    exact ih _ hb.1 hb.2

/-- Everything a tick produces except the logged reboot result is independent
of the `subprocess.run` outcome. -/
lemma monitor_task_run_independent (m : StreamMonitor)
    (f1 f2 : Except String ExtractInfo) (r r' : RunOutcome) :
    (monitor_task m ⟨f1, f2, r⟩).monitor = (monitor_task m ⟨f1, f2, r'⟩).monitor ∧
    (monitor_task m ⟨f1, f2, r⟩).reboot_invocations =
      (monitor_task m ⟨f1, f2, r'⟩).reboot_invocations := by
  cases f1 <;> cases f2 <;>
    exact ⟨by simp only [monitor_task]; split <;> split <;> rfl,
           by simp only [monitor_task]; split <;> split <;> rfl⟩

/-! ### The claims -/

/-- C1: starting from counter 0, after processing any finite sequence of
aggregate verdicts the counter equals the length of the trailing run of
negative verdicts reduced by the reset-on-trip rule (reduction modulo
`max_failures`, so the count returns to 0 on the tick at which a trailing
negative run reaches the threshold); each tick's counter transition is
exactly `tick_counter` on the tick's aggregate verdict. -/
theorem counter_after_ticks_eq_trailing_negative_run_mod
    (mf : Int) (hmf : 1 ≤ mf) (vs : List Bool) :
    (∀ (m : StreamMonitor) (inp : TickInputs),
      (monitor_task m inp).monitor.consecutive_failures =
        tick_counter m.max_failures m.consecutive_failures (aggregate_verdict m inp)) ∧
    vs.foldl (tick_counter mf) 0 = (trailing_failure_run vs : Int) % mf := by
  refine ⟨monitor_task_counter, ?_⟩
  rw [foldl_tick_counter_emod mf hmf vs 0 0 le_rfl (by simp),
    foldl_step_eq_trailing_run]

/-- Witness for C1 at `max_failures = 3` and the verdict sequence
`[false, false, false, false]` (trailing run 4, counter 4 % 3 = 1). -/
theorem counter_after_ticks_eq_trailing_negative_run_mod_witness :
    (1 : Int) ≤ 3 ∧
    [false, false, false, false].foldl (tick_counter 3) 0 =
      (trailing_failure_run [false, false, false, false] : Int) % 3 :=
  ⟨by norm_num,
   (counter_after_ticks_eq_trailing_negative_run_mod 3 (by norm_num)
     [false, false, false, false]).2⟩

/-- C2: a tick whose counter update reaches or exceeds `max_failures` invokes
`reboot_raspberry_pi` exactly once and leaves the counter at 0; the monitor
state it leaves and the number of invocations are independent of the
actuator's outcome. -/
theorem trip_invokes_actuator_once_and_resets
    (m : StreamMonitor) (inp : TickInputs)
    (htrip : (if aggregate_verdict m inp then 0 else m.consecutive_failures + 1) ≥
      m.max_failures) :
    (monitor_task m inp).reboot_invocations = 1 ∧
    (monitor_task m inp).monitor.consecutive_failures = 0 ∧
    ∀ r : RunOutcome,
      (monitor_task m ⟨inp.fetch1, inp.fetch2, r⟩).monitor =
        (monitor_task m inp).monitor ∧
      (monitor_task m ⟨inp.fetch1, inp.fetch2, r⟩).reboot_invocations = 1 := by
  obtain ⟨f1, f2, rr⟩ := inp
  refine ⟨?_, ?_, ?_⟩
  · rw [monitor_task_eq, if_pos htrip]
  · rw [monitor_task_eq, if_pos htrip]
    rfl
  · intro r
    have hind := monitor_task_run_independent m f1 f2 r rr
    refine ⟨hind.1, ?_⟩
    rw [hind.2, monitor_task_eq, if_pos htrip]

/-- Witness for C2: counter 2, threshold 3, both strategies erroring
(negative verdict), actuator timing out. -/
theorem trip_invokes_actuator_once_and_resets_witness :
    ((if aggregate_verdict ⟨2, 3, "u", "h", "n", "p"⟩
          ⟨.error "x", .error "y", .timedOut⟩ then 0 else (2 : Int) + 1) ≥ 3) ∧
    (monitor_task ⟨2, 3, "u", "h", "n", "p"⟩
        ⟨.error "x", .error "y", .timedOut⟩).reboot_invocations = 1 ∧
    (monitor_task ⟨2, 3, "u", "h", "n", "p"⟩
        ⟨.error "x", .error "y", .timedOut⟩).monitor.consecutive_failures = 0 :=
  ⟨by decide,
   (trip_invokes_actuator_once_and_resets ⟨2, 3, "u", "h", "n", "p"⟩
      ⟨.error "x", .error "y", .timedOut⟩ (by decide)).1,
   (trip_invokes_actuator_once_and_resets ⟨2, 3, "u", "h", "n", "p"⟩
      ⟨.error "x", .error "y", .timedOut⟩ (by decide)).2.1⟩

/-- C3: with a positive threshold, a tick whose aggregate verdict is live
resets the counter to 0 from any prior value and does not invoke the
actuator — no partial credit or decay. -/
theorem live_verdict_resets_counter_without_reboot
    (m : StreamMonitor) (inp : TickInputs)
    (hmf : 1 ≤ m.max_failures)
    (hv : aggregate_verdict m inp = true) :
    (monitor_task m inp).monitor.consecutive_failures = 0 ∧
    (monitor_task m inp).reboot_invocations = 0 ∧
    (monitor_task m inp).reboot_result = none := by
  have hlt : ¬ ((0 : Int) ≥ m.max_failures) := by omega
  rw [monitor_task_eq, hv]
  simp only [if_true]
  rw [if_neg hlt]
  exact ⟨rfl, rfl, rfl⟩

/-- Witness for C3: counter 2 (one tick from tripping), threshold 3, primary
strategy seeing a live entry. -/
theorem live_verdict_resets_counter_without_reboot_witness :
    (1 : Int) ≤ 3 ∧
    aggregate_verdict ⟨2, 3, "u", "h", "n", "p"⟩
      ⟨.ok ⟨[⟨some "is_live", none, none, some (some 7200), some "t"⟩]⟩,
       .error "y", .timedOut⟩ = true ∧
    (monitor_task ⟨2, 3, "u", "h", "n", "p"⟩
      ⟨.ok ⟨[⟨some "is_live", none, none, some (some 7200), some "t"⟩]⟩,
       .error "y", .timedOut⟩).monitor.consecutive_failures = 0 :=
  ⟨by norm_num, by decide,
   (live_verdict_resets_counter_without_reboot ⟨2, 3, "u", "h", "n", "p"⟩
      ⟨.ok ⟨[⟨some "is_live", none, none, some (some 7200), some "t"⟩]⟩,
       .error "y", .timedOut⟩ (by norm_num) (by decide)).1⟩

/-- C4: starting from counter 0, after any sequence of ticks the counter lies
in the interval `[0, max_failures]`: it is reset to 0 the instant it would
exceed the threshold. -/
theorem counter_invariant_bounds (mf : Int) (hmf : 1 ≤ mf) (vs : List Bool) :
    0 ≤ vs.foldl (tick_counter mf) 0 ∧ vs.foldl (tick_counter mf) 0 ≤ mf :=
  foldl_tick_counter_bounds mf hmf vs 0 le_rfl (by omega)

/-- Witness for C4 at threshold 3 and the verdict sequence `[false, false]`. -/
theorem counter_invariant_bounds_witness :
    (1 : Int) ≤ 3 ∧
    (0 ≤ [false, false].foldl (tick_counter 3) 0 ∧
     [false, false].foldl (tick_counter 3) 0 ≤ 3) :=
  ⟨by norm_num, counter_invariant_bounds 3 (by norm_num) [false, false]⟩

/-- C7: with `max_failures = 1` and counter 0, the very first tick with a
negative aggregate verdict invokes the actuator and resets the counter to 0
on that same tick. -/
theorem max_failures_one_trips_first_negative_tick
    (cu h u p : String) (inp : TickInputs)
    (hv : aggregate_verdict ⟨0, 1, cu, h, u, p⟩ inp = false) :
    (monitor_task ⟨0, 1, cu, h, u, p⟩ inp).reboot_invocations = 1 ∧
    (monitor_task ⟨0, 1, cu, h, u, p⟩ inp).monitor.consecutive_failures = 0 := by
  have htrip : (if aggregate_verdict ⟨0, 1, cu, h, u, p⟩ inp then 0
      else (StreamMonitor.mk 0 1 cu h u p).consecutive_failures + 1) ≥
        (StreamMonitor.mk 0 1 cu h u p).max_failures := by
    rw [hv]
    norm_num
  rw [monitor_task_eq, if_pos htrip]
  exact ⟨rfl, rfl⟩

/-- Witness for C7: both strategies erroring on the first tick. -/
theorem max_failures_one_trips_first_negative_tick_witness :
    aggregate_verdict ⟨0, 1, "u", "h", "n", "p"⟩
      ⟨.error "x", .error "y", .timedOut⟩ = false ∧
    (monitor_task ⟨0, 1, "u", "h", "n", "p"⟩
      ⟨.error "x", .error "y", .timedOut⟩).reboot_invocations = 1 :=
  ⟨by decide,
   (max_failures_one_trips_first_negative_tick "u" "h" "n" "p"
      ⟨.error "x", .error "y", .timedOut⟩ (by decide)).1⟩

/-- C5: the verdict a tick acts on is the logical OR of the two strategies'
verdicts, and a strategy whose extraction raises yields the negative verdict
`(false, [])` from that strategy; both strategies (and hence the tick) are
total functions, so no detection exception propagates to the caller. -/
theorem aggregate_verdict_is_or_and_errors_fold_to_negative
    (m m1 m2 : StreamMonitor) (inp : TickInputs) (e1 e2 : String) :
    (monitor_task m inp).is_live =
      ((check_live_stream m inp.fetch1).1.1 ||
       (check_live_stream_alternative (check_live_stream m inp.fetch1).2
          inp.fetch2).1.1) ∧
    (check_live_stream m1 (.error e1)).1 = (false, []) ∧
    (check_live_stream_alternative m2 (.error e2)).1 = (false, []) := by
  refine ⟨?_, rfl, rfl⟩
  rw [monitor_task_eq]
  split <;> split <;> rfl

/-- C6: `reboot_raspberry_pi` returns `True` exactly on exit status 0, `True`
on the (30-second) hard timeout, `False` on a non-zero exit status, and
`False` on any other transport/auth exception; being a total function, it
never raises past its boundary. -/
theorem reboot_result_policy (m : StreamMonitor) (rc : Int) (stderr msg : String) :
    (reboot_raspberry_pi m (.completed rc stderr) = true ↔ rc = 0) ∧
    reboot_raspberry_pi m .timedOut = true ∧
    reboot_raspberry_pi m (.raised msg) = false ∧
    reboot_timeout_seconds = 30 := by
  refine ⟨?_, rfl, rfl, rfl⟩
  simp [reboot_raspberry_pi]

/-- Witness for C6 at exit codes 0 and 1. -/
theorem reboot_result_policy_witness :
    reboot_raspberry_pi ⟨0, 3, "u", "h", "n", "p"⟩ (.completed 0 "") = true ∧
    reboot_raspberry_pi ⟨0, 3, "u", "h", "n", "p"⟩ (.completed 1 "err") ≠ true :=
  ⟨(reboot_result_policy ⟨0, 3, "u", "h", "n", "p"⟩ 0 "" "m").1.mpr rfl,
   fun hc =>
     absurd ((reboot_result_policy ⟨0, 3, "u", "h", "n", "p"⟩ 1 "err" "m").1.mp hc)
       (by norm_num)⟩

/-- C9: neither detection strategy mutates the monitor: the state either call
returns is the input state (counter and every configuration field unchanged),
and a repeated call on that state with an unchanged remote source returns the
same verdict. -/
theorem detectors_do_not_mutate_state
    (m : StreamMonitor) (f g : Except String ExtractInfo) :
    (check_live_stream m f).2 = m ∧
    (check_live_stream_alternative m g).2 = m ∧
    (check_live_stream (check_live_stream m f).2 f).1 = (check_live_stream m f).1 ∧
    (check_live_stream_alternative (check_live_stream_alternative m g).2 g).1 =
      (check_live_stream_alternative m g).1 := by
  refine ⟨check_live_stream_state m f, check_live_stream_alternative_state m g, ?_, ?_⟩
  · rw [check_live_stream_state]
  · rw [check_live_stream_alternative_state]

/-- C8: if any required configuration value (channel URL, SSH host, username
or password) is unset, construction raises (`StreamMonitor.init` errors) and
`main` prints a diagnostic and returns without entering the monitoring loop
(the startup outcome is `startupFailure`, never `started`). -/
theorem missing_config_fails_fast (env : Env)
    (hmiss : env.youtube_channel_url = none ∨ env.ssh_host = none ∨
             env.ssh_username = none ∨ env.ssh_password = none) :
    (∃ e, StreamMonitor.init env = .error e) ∧
    ∃ d, main_entry env = .startupFailure d := by
  have hfalse : (truthyStr env.youtube_channel_url && truthyStr env.ssh_host &&
      truthyStr env.ssh_username && truthyStr env.ssh_password) = false := by
    rcases hmiss with h | h | h | h <;> rw [h] <;> simp [truthyStr]
  have hinit : ∃ e, StreamMonitor.init env = .error e := by
    unfold StreamMonitor.init
    cases hm : env.max_consecutive_failures with
    | none =>
      simp only [hm]
      rw [hfalse]
      exact ⟨"Missing required environment variables", by simp⟩
    | some s =>
      simp only [hm]
      cases ht : s.toInt? with
      | none => exact ⟨_, rfl⟩
      | some mfv =>
        simp only [ht]
        rw [hfalse]
        exact ⟨"Missing required environment variables", by simp⟩
  obtain ⟨e, he⟩ := hinit
  refine ⟨⟨e, he⟩, ⟨"Failed to start monitor: " ++ e, ?_⟩⟩
  unfold main_entry
  rw [he]

/-- Witness for C8: the empty environment (every variable unset). -/
theorem missing_config_fails_fast_witness :
    (Env.mk none none none none none none).youtube_channel_url = none ∧
    (∃ e, StreamMonitor.init ⟨none, none, none, none, none, none⟩ = .error e) ∧
    ∃ d, main_entry ⟨none, none, none, none, none, none⟩ = .startupFailure d :=
  ⟨rfl,
   (missing_config_fails_fast ⟨none, none, none, none, none, none⟩ (Or.inl rfl)).1,
   (missing_config_fails_fast ⟨none, none, none, none, none, none⟩ (Or.inl rfl)).2⟩

/-- C10: the primary strategy keeps an in-progress entry only if its reported
duration is `None` or strictly greater than 3600 seconds; consequently, if
every in-progress entry reports a numeric duration of at most 3600 seconds
(one hour), the strategy's verdict is negative. -/
theorem primary_strategy_duration_filter (m : StreamMonitor) (info : ExtractInfo) :
    (∀ e ∈ (check_live_stream m (.ok info)).1.2,
        isCurrentlyLive e = true ∧
        (e.duration.getD (some 0) = none ∨
          ∃ d : Int, e.duration.getD (some 0) = some d ∧ 3600 < d)) ∧
    ((∀ e ∈ info.entries, isCurrentlyLive e = true →
        ∃ d : Int, e.duration.getD (some 0) = some d ∧ d ≤ 3600) →
      (check_live_stream m (.ok info)).1.1 = false) := by
  constructor
  · intro e he
    have hmem : e ∈ info.entries.filter (fun x => isCurrentlyLive x && durationOk x) := he
    rw [List.mem_filter, Bool.and_eq_true] at hmem
    refine ⟨hmem.2.1, ?_⟩
    have hd := hmem.2.2
    rcases hdd : e.duration.getD (some 0) with _ | d
    · exact Or.inl rfl
    · rw [durationOk, hdd] at hd
      exact Or.inr ⟨d, rfl, of_decide_eq_true hd⟩
  · intro hall
    have hnil : info.entries.filter (fun x => isCurrentlyLive x && durationOk x) = [] := by
      rw [List.filter_eq_nil]
      intro a ha hc
      rw [Bool.and_eq_true] at hc
      obtain ⟨d, hd, hle⟩ := hall a ha hc.1
      have := hc.2
      rw [durationOk, hd] at this
      exact absurd (of_decide_eq_true this) (by omega)
    show decide (0 <
      (info.entries.filter (fun x => isCurrentlyLive x && durationOk x)).length) = false
    rw [hnil]
    rfl

/-- Witness for C10: a channel whose only in-progress entry reports a
30-minute duration yields a negative primary verdict. -/
theorem primary_strategy_duration_filter_witness :
    (∀ e ∈ (ExtractInfo.mk
        [⟨some "is_live", none, none, some (some 1800), some "t"⟩]).entries,
      isCurrentlyLive e = true →
        ∃ d : Int, e.duration.getD (some 0) = some d ∧ d ≤ 3600) ∧
    (check_live_stream ⟨0, 3, "u", "h", "n", "p"⟩
      (.ok ⟨[⟨some "is_live", none, none, some (some 1800), some "t"⟩]⟩)).1.1 =
        false :=
  ⟨by
    intro e he _
    rw [List.mem_singleton] at he
    subst he
    exact ⟨1800, rfl, by norm_num⟩,
   (primary_strategy_duration_filter ⟨0, 3, "u", "h", "n", "p"⟩
      ⟨[⟨some "is_live", none, none, some (some 1800), some "t"⟩]⟩).2
    (by
      intro e he _
      rw [List.mem_singleton] at he
      subst he
      exact ⟨1800, rfl, by norm_num⟩)⟩
